import Mathlib

/-
  Verification of the youtube-transcript repository (src/main.py, src/app.py)
  against its natural-language specification.

  Shallow embedding conventions:
  - Python strings are Lean String (a structure around List Char);
    most character-level helpers work on List Char.
  - Python floats (segment start/duration) are modelled as Rat; the claims
    under study are about exact arithmetic on small values, not rounding.
  - The external youtube_transcript_api library is modelled as an opaque
    Gateway record of two functions (fetch, listTranscripts); each HTTP
    handler is a pure function of its inputs and a Gateway, returning its
    response together with the trace of gateway calls it performed.
  - Python percent-decoding in urllib.parse.unquote is modelled at the
    code-point level: a valid escape %XX becomes the character with code
    16*X+X.  This coincides with CPython for ASCII escapes; multi-byte
    UTF-8 escape sequences are not modelled (no claim depends on them).
-/

/-! ## Character classes -/

/-- Characters accepted by the regex character class [a-zA-Z0-9_-] in
`re.match(r'^[a-zA-Z0-9_-]{11}$', v)` (src/main.py line 39). -/
def isIdChar (c : Char) : Bool :=
  c.isAlphanum || c == '_' || c == '-'

/-- Whitespace recognized by Python str.split() / str.strip(), modelled for
the ASCII range (space, tab, newline, carriage return, vertical tab,
form feed). -/
def isPySpace (c : Char) : Bool :=
  c == ' ' || c == '\t' || c == '\n' || c == '\x0d' || c == Char.ofNat 11 || c == Char.ofNat 12

def isHexDigit (c : Char) : Bool :=
  c.isDigit || ('a' ≤ c && c ≤ 'f') || ('A' ≤ c && c ≤ 'F')

def hexVal (c : Char) : Nat :=
  if c.isDigit then c.toNat - '0'.toNat
  else if 'a' ≤ c && c ≤ 'f' then c.toNat - 'a'.toNat + 10
  else c.toNat - 'A'.toNat + 10

/-! ## List-of-char string primitives mirroring Python str operations -/

/-- Python substring containment: needle in haystack. -/
def listContains (n : List Char) : List Char → Bool
  | [] => n.isEmpty
  | c :: rest => n.isPrefixOf (c :: rest) || listContains n rest

/-- Python-style containment on String. -/
def strContains (h n : String) : Bool :=
  listContains n.data h.data

/-- Drop everything through the first occurrence of n (none if n does not
occur).  Mirrors one step of Python str.split's left-to-right scan. -/
def dropThroughFirst (n : List Char) : List Char → Option (List Char)
  | [] => none
  | c :: rest =>
    if n.isPrefixOf (c :: rest) then some ((c :: rest).drop n.length)
    else dropThroughFirst n rest

def splitTailGo (n : List Char) : Nat → List Char → List Char
  | 0, h => h
  | fuel + 1, h =>
    match dropThroughFirst n h with
    | none => h
    | some r => splitTailGo n fuel r

/-- The remainder after the last (left-to-right, non-overlapping) occurrence
of n, i.e. Python h.split(n)[-1] for non-empty n.  Fuel h.length + 1 is
always enough since every step removes at least one character. -/
def splitTail (n h : List Char) : List Char :=
  splitTailGo n (h.length + 1) h

/-- Python s.split(sep)[0] for a one-character separator: the prefix before
the first occurrence of c. -/
def beforeFirstChar (c : Char) (l : List Char) : List Char :=
  l.takeWhile (fun x => !(x == c))

/-- Everything after the first occurrence of c ([] when c is absent). -/
def afterFirstChar (c : Char) : List Char → List Char
  | [] => []
  | x :: rest => if x == c then rest else afterFirstChar c rest

/-- Python s.split(c) for a one-character separator. -/
def splitChar (sep : Char) : List Char → List (List Char)
  | [] => [[]]
  | c :: rest =>
    match splitChar sep rest with
    | [] => if c == sep then [[], []] else [[c]]
    | t :: ts => if c == sep then [] :: t :: ts else (c :: t) :: ts

/-- Split at the first occurrence of c: Python s.split(c, 1) when c occurs. -/
def splitFirst (sep : Char) : List Char → Option (List Char × List Char)
  | [] => none
  | x :: rest =>
    if x == sep then some ([], rest)
    else
      match splitFirst sep rest with
      | none => none
      | some (a, b) => some (x :: a, b)

/-- urllib.parse.unquote_plus, modelled at the code-point level: '+' becomes
a space and a valid %XX escape becomes the character with that code. -/
def unquotePlus : List Char → List Char
  | [] => []
  | '+' :: rest => ' ' :: unquotePlus rest
  | '%' :: a :: b :: rest =>
    if isHexDigit a && isHexDigit b then
      Char.ofNat (16 * hexVal a + hexVal b) :: unquotePlus rest
    else '%' :: unquotePlus (a :: b :: rest)
  | c :: rest => c :: unquotePlus rest

/-! ## urlparse / parse_qs model (the slice used by extract_video_id) -/

/-- The query component urlparse extracts: urlsplit removes the fragment at
the first '#', then the query is everything after the first '?' of what
remains (scheme and netloc contain neither character, so removing them
first does not change this). -/
def pyQuery (url : List Char) : List Char :=
  afterFirstChar '?' (url.takeWhile (fun c => !(c == '#')))

/-- One field of parse_qsl with keep_blank_values=False: fields without '='
or with an empty value are dropped. -/
def parseQsField (field : List Char) : Option (List Char × List Char) :=
  match splitFirst '=' field with
  | none => none
  | some (n, v) => if v.isEmpty then none else some (unquotePlus n, unquotePlus v)

/-- urllib.parse.parse_qsl of a query string (separator '&',
keep_blank_values False, empty fields skipped). -/
def parseQsl (query : List Char) : List (List Char × List Char) :=
  (splitChar '&' query).foldr
    (fun field acc =>
      if field.isEmpty then acc
      else match parseQsField field with
        | none => acc
        | some p => p :: acc)
    []

/-- parse_qs(query).get('v', [None])[0]: the first value bound to key v. -/
def queryParamV (query : List Char) : Option (List Char) :=
  ((parseQsl query).find? (fun p => p.1 == ['v'])).map (fun p => p.2)

/-! ## Identifier Normalizer (src/main.py lines 65-75, src/app.py 13-22) -/

/-- extract_video_id from src/main.py.  Returns none exactly where the
Python function returns None (a youtube.com/watch URL without a usable v
parameter).  Note the third branch splits on the marker 'embed/',
exactly as url.split('embed/')[-1] does. -/
def extract_video_id (url : String) : Option String :=
  if strContains url "youtu.be/" then
    some ⟨beforeFirstChar '?' (splitTail "youtu.be/".data url.data)⟩
  else if strContains url "youtube.com/watch" then
    (queryParamV (pyQuery url.data)).map (fun v => (⟨v⟩ : String))
  else if strContains url "youtube.com/embed/" then
    some ⟨beforeFirstChar '?' (splitTail "embed/".data url.data)⟩
  else
    some url

/-- The exact language of re.match(r'^[a-zA-Z0-9_-]{11}$', s): because a
bare '$' in Python also matches just before a single trailing newline,
the accepted strings are 11 class characters optionally followed by
one final newline. -/
def pyMatchesId (s : String) : Bool :=
  (s.data.length == 11 && s.data.all isIdChar) ||
  (s.data.length == 12 && (s.data.take 11).all isIdChar && s.data.getLast? == some '\n')

/-- The 11-character identifier pattern ^[A-Za-z0-9_-]{11}$ read as a plain
(full-match) regular expression, as the spec states it. -/
def specMatchId (s : String) : Bool :=
  s.data.length == 11 && s.data.all isIdChar

/-- Errors a pydantic validator body can raise here: the explicit
ValueError, or the TypeError from re.match(pattern, None). -/
inductive PyErr where
  | valueError (msg : String)
  | typeError (msg : String)
deriving DecidableEq

/-- Pydantic v1 converts ValueError, TypeError and AssertionError raised in
a validator into a ValidationError on the model; both error forms of the
normalizer are of these kinds. -/
def pydanticCatchesErr : PyErr → Bool
  | .valueError _ => true
  | .typeError _ => true

/-- The candidate string the validator checks: extract_video_id is applied
only when the input mentions youtube.com or youtu.be
(src/main.py lines 35-36). -/
def candidateOf (v : String) : Option String :=
  if strContains v "youtube.com" || strContains v "youtu.be" then extract_video_id v
  else some v

/-- TranscriptRequest.validate_video_id / LanguageListRequest.validate_video_id
(src/main.py lines 32-41 and 57-63; the two validators are identical). -/
def validate_video_id (v : String) : Except PyErr String :=
  match candidateOf v with
  | none => .error (.typeError "expected string or bytes-like object")
  | some c =>
    if pyMatchesId c then .ok c
    else .error (.valueError "Invalid YouTube video ID format")

/-! ## Response Formatter (src/main.py lines 77-86) -/

/-- One timed transcript segment; start and duration are modelled as Rat. -/
structure Segment where
  text : String
  start : Rat
  duration : Rat
deriving DecidableEq

/-- Python sep.join(xs), written by structural recursion (equivalent to the
fold the interpreter performs). -/
def pyJoin (sep : String) : List String → String
  | [] => ""
  | [x] => x
  | x :: y :: rest => x ++ sep ++ pyJoin sep (y :: rest)

/-- format_transcript_text: ' '.join of the segment texts. -/
def format_transcript_text (transcript : List Segment) : String :=
  pyJoin " " (transcript.map (fun item => item.text))

/-- calculate_duration: 0.0 on the empty list, otherwise start + duration of
the last segment. -/
def calculate_duration (transcript : List Segment) : Rat :=
  match transcript.getLast? with
  | none => 0
  | some last_item => last_item.start + last_item.duration

/-- Python s.split() tokenization (split on whitespace runs, no empty
tokens), via an accumulator of the characters of the current word in
reverse. -/
def pyWordsAux (cur : List Char) : List Char → List (List Char)
  | [] => if cur.isEmpty then [] else [cur.reverse]
  | c :: cs =>
    if isPySpace c then
      if cur.isEmpty then pyWordsAux [] cs else cur.reverse :: pyWordsAux [] cs
    else pyWordsAux (c :: cur) cs

def pyWords (l : List Char) : List (List Char) :=
  pyWordsAux [] l

/-- len(s.split()), the word count of src/main.py line 130. -/
def pyWordCount (s : String) : Nat :=
  (pyWords s.data).length

/-! ## Python repr of a list of strings (the f-string on line 166) -/

/-- repr of one Python string: quote choice and the common escapes
(backslash, delimiter quote, newline, carriage return, tab); rarer
non-printable escapes are not modelled and no claim depends on them. -/
def pyReprChar (quote : Char) (c : Char) : List Char :=
  if c == '\\' then ['\\', '\\']
  else if c == quote then ['\\', quote]
  else if c == '\n' then ['\\', 'n']
  else if c == '\x0d' then ['\\', 'r']
  else if c == '\t' then ['\\', 't']
  else [c]

def pyReprStr (s : String) : String :=
  let sq := Char.ofNat 39
  let dq := Char.ofNat 34
  let quote := if s.data.contains sq && !(s.data.contains dq) then dq else sq
  ⟨quote :: s.data.foldr (fun c acc => pyReprChar quote c ++ acc) [quote]⟩

/-- Python str of a list of strings, e.g. ['en', 'es']. -/
def pyListRepr (xs : List String) : String :=
  "[" ++ pyJoin ", " (xs.map pyReprStr) ++ "]"

/-! ## Transcript Gateway model -/

/-- Failure modes of ytt.get_transcript distinguished by the handler. -/
inductive FetchErr where
  | transcriptsDisabled
  | noTranscriptFound
  | videoUnavailable
  | unexpected (msg : String)
deriving DecidableEq

/-- Failure modes of ytt.list_transcripts distinguished by the
available-languages handler (the transcript handler catches them all
generically). -/
inductive ListErr where
  | transcriptsDisabled
  | videoUnavailable
  | other (msg : String)
deriving DecidableEq

/-- One entry of the available-transcripts listing. -/
structure TranscriptEntry where
  language_code : String
  language : String
  is_generated : Bool
  is_translatable : Bool
deriving DecidableEq

/-- The external provider as an opaque, per-call-deterministic capability. -/
structure Gateway where
  fetch : String → List String → Except FetchErr (List Segment)
  listTranscripts : String → Except ListErr (List TranscriptEntry)

/-- A call made to the gateway, recorded with its arguments. -/
inductive GatewayCall where
  | fetchCall (video_id : String) (languages : List String)
  | listCall (video_id : String)
deriving DecidableEq

def GatewayCall.videoId : GatewayCall → String
  | .fetchCall v _ => v
  | .listCall v => v

/-- The TranscriptResponse model of src/main.py lines 43-52. -/
structure TranscriptResponse where
  success : Bool
  video_id : String
  language : Option String
  available_languages : Option (List String)
  transcript : Option (List Segment)
  formatted_text : Option String
  error : Option String
  total_duration : Option Rat
  word_count : Option Nat
deriving DecidableEq

/-- Lines 120-125: the available_languages list, [] when listing raises. -/
def availableLanguagesCalc (gw : Gateway) (video_id : String) : List String :=
  match gw.listTranscripts video_id with
  | .ok entries => entries.map (fun t => t.language_code)
  | .error _ => []

/-- Lines 132-143: the used-language determination.  The listing is scanned
in its own iteration order; on a listing failure the fallback is the
first requested language, or "unknown" when the request carries no
languages. -/
def usedLanguageCalc (gw : Gateway) (video_id : String) (languages : List String)
    (transcript_list : List Segment) : Option String :=
  if transcript_list.isEmpty then none
  else
    match gw.listTranscripts video_id with
    | .ok entries =>
      (entries.find? (fun t => languages.contains t.language_code)).map
        (fun t => t.language_code)
    | .error _ =>
      match languages with
      | [] => some "unknown"
      | l :: _ => some l

/-- The POST /transcript handler body (src/main.py lines 103-180), applied
to an already-validated request; returns the response and the trace of
gateway calls in order.  preserve_formatting is received but never read,
exactly as in the source. -/
def get_transcript (gw : Gateway) (video_id : String) (languages : List String)
    (preserve_formatting : Bool) : TranscriptResponse × List GatewayCall :=
  match gw.fetch video_id languages with
  | .ok transcript_list =>
    let avail := availableLanguagesCalc gw video_id
    let total_duration := calculate_duration transcript_list
    let formatted_text := format_transcript_text transcript_list
    let word_count := pyWordCount formatted_text
    let used := usedLanguageCalc gw video_id languages transcript_list
    (⟨true, video_id, used, some avail, some transcript_list, some formatted_text,
       none, some total_duration, some word_count⟩,
     [.fetchCall video_id languages, .listCall video_id] ++
       (if transcript_list.isEmpty then [] else [.listCall video_id]))
  | .error .transcriptsDisabled =>
    (⟨false, video_id, none, none, none, none,
       some "Transcripts are disabled for this video", none, none⟩,
     [.fetchCall video_id languages])
  | .error .noTranscriptFound =>
    (⟨false, video_id, none, none, none, none,
       some ("No transcript found for languages: " ++ pyListRepr languages), none, none⟩,
     [.fetchCall video_id languages])
  | .error .videoUnavailable =>
    (⟨false, video_id, none, none, none, none,
       some "Video is unavailable", none, none⟩,
     [.fetchCall video_id languages])
  | .error (.unexpected msg) =>
    (⟨false, video_id, none, none, none, none,
       some ("Unexpected error: " ++ msg), none, none⟩,
     [.fetchCall video_id languages])

/-- How an endpoint invocation ends at the HTTP boundary: a request
validation failure (pydantic rejecting the body before the handler
runs, surfaced as a 422), an unhandled exception inside the handler
(surfaced as a 500), or a handler response. -/
inductive EndpointResult (α : Type) where
  | validationError
  | serverError
  | ok (r : α)
deriving DecidableEq

/-- POST /transcript: FastAPI validates the body (running
validate_video_id) before the handler runs; a failure is a 422
request-validation response and the handler is never entered.  The
pydantic default languages=["en"] applies when the field is omitted
(modelled by the caller passing ["en"]). -/
def post_transcript (gw : Gateway) (video_id : String) (languages : List String)
    (preserve_formatting : Bool) : EndpointResult TranscriptResponse × List GatewayCall :=
  match validate_video_id video_id with
  | .error _ => (.validationError, [])
  | .ok vid =>
    let (r, t) := get_transcript gw vid languages preserve_formatting
    (.ok r, t)

/-- [lang.strip() for lang in languages.split(',') if lang.strip()]
(src/main.py line 191). -/
def pyStrip (s : String) : String :=
  ⟨((s.data.dropWhile isPySpace).reverse.dropWhile isPySpace).reverse⟩

def splitClean (languages : String) : List String :=
  ((splitChar ',' languages.data).map (fun l => pyStrip ⟨l⟩)).filter (fun s => !(s == ""))

/-- GET /transcript (src/main.py lines 182-198): comma-splits the languages
parameter, then constructs a TranscriptRequest inside the handler; a
pydantic ValidationError raised there is an unhandled exception, so it
surfaces as a 500 server error (not a 422).  The query defaults
languages="en", preserve_formatting=False apply when the parameters are
absent (modelled by the caller passing them). -/
def get_transcript_get (gw : Gateway) (video_id : String) (languages : String)
    (preserve_formatting : Bool) : EndpointResult TranscriptResponse × List GatewayCall :=
  let language_list := splitClean languages
  match validate_video_id video_id with
  | .error _ => (.serverError, [])
  | .ok vid =>
    let (r, t) := get_transcript gw vid language_list preserve_formatting
    (.ok r, t)

/-- Response shape of the available-languages endpoints. -/
structure LanguagesResponse where
  success : Bool
  video_id : String
  available_languages : Option (List TranscriptEntry)
  error : Option String
deriving DecidableEq

/-- The POST /available-languages handler body (src/main.py lines 200-244),
applied to an already-validated request. -/
def get_available_languages (gw : Gateway) (video_id : String) :
    LanguagesResponse × List GatewayCall :=
  match gw.listTranscripts video_id with
  | .ok entries => (⟨true, video_id, some entries, none⟩, [.listCall video_id])
  | .error .transcriptsDisabled =>
    (⟨false, video_id, none, some "Transcripts are disabled for this video"⟩,
     [.listCall video_id])
  | .error .videoUnavailable =>
    (⟨false, video_id, none, some "Video is unavailable"⟩, [.listCall video_id])
  | .error (.other msg) =>
    (⟨false, video_id, none, some ("Unexpected error: " ++ msg)⟩, [.listCall video_id])

/-- POST /available-languages with body validation at the FastAPI boundary. -/
def post_available_languages (gw : Gateway) (video_id : String) :
    EndpointResult LanguagesResponse × List GatewayCall :=
  match validate_video_id video_id with
  | .error _ => (.validationError, [])
  | .ok vid =>
    let (r, t) := get_available_languages gw vid
    (.ok r, t)

/-- GET /available-languages (src/main.py lines 246-254): validation happens
inside the handler, so its failure surfaces as a 500. -/
def get_available_languages_get (gw : Gateway) (video_id : String) :
    EndpointResult LanguagesResponse × List GatewayCall :=
  match validate_video_id video_id with
  | .error _ => (.serverError, [])
  | .ok vid =>
    let (r, t) := get_available_languages gw vid
    (.ok r, t)

deriving instance DecidableEq for Except

/-! ## Helper lemmas -/

theorem strData_append : ∀ (a b : String), (a ++ b).data = a.data ++ b.data :=
  fun ⟨_⟩ ⟨_⟩ => rfl

theorem pyWordsAux_append_space (a : List Char) : ∀ (cur b : List Char),
    pyWordsAux cur (a ++ ' ' :: b) = pyWordsAux cur a ++ pyWords b := by
  induction a with
  | nil =>
    intro cur b
    by_cases h : cur.isEmpty <;>
      simp [pyWordsAux, pyWords, h, isPySpace]
  | cons c a ih =>
    intro cur b
    by_cases hc : isPySpace c = true
    · by_cases h : cur.isEmpty <;>
        simp [pyWordsAux, hc, h, ih]
    · simp [pyWordsAux, hc, ih]

theorem pyWords_append_space (a b : List Char) :
    pyWords (a ++ ' ' :: b) = pyWords a ++ pyWords b :=
  pyWordsAux_append_space a [] b

theorem pyWords_join : ∀ (texts : List String),
    pyWords ((pyJoin " " texts).data) = (texts.map (fun t => pyWords t.data)).flatten
  | [] => by decide
  | [x] => by simp [pyJoin]
  | x :: y :: rest => by
    have ih := pyWords_join (y :: rest)
    have hdata : (x ++ " " ++ pyJoin " " (y :: rest)).data
        = x.data ++ ' ' :: (pyJoin " " (y :: rest)).data := by
      rw [strData_append, strData_append]
      simp
    have hjoin : pyJoin " " (x :: y :: rest) = x ++ " " ++ pyJoin " " (y :: rest) := rfl
    rw [hjoin, hdata, pyWords_append_space, ih]
    simp

/-! ## Claim C6 -/

/-- C6: for every segment sequence the formatted text is the segment texts
joined with single spaces (so the empty sequence formats to ""), and the
word count len(formatted.split()) equals the sum over segments of the
per-text whitespace token counts. -/
theorem c6_format_text_and_word_count :
    format_transcript_text [] = "" ∧
    (∀ segs : List Segment,
      format_transcript_text segs = pyJoin " " (segs.map (fun sg => sg.text)) ∧
      pyWordCount (format_transcript_text segs)
        = (segs.map (fun sg => pyWordCount sg.text)).sum) := by
  refine ⟨rfl, fun segs => ⟨rfl, ?_⟩⟩
  unfold pyWordCount format_transcript_text
  rw [pyWords_join, List.length_flatten]
  simp only [List.map_map]
  rfl

/-! ## Claim C7 -/

/-- C7: the total duration is the last segment's start + duration (so a
sequence ending in start 10, duration 2 has total duration 12),
independent of all earlier segments, and 0 for the empty sequence. -/
theorem c7_total_duration :
    calculate_duration [] = 0 ∧
    (∀ (l : List Segment) (h : l ≠ []),
      calculate_duration l = (l.getLast h).start + (l.getLast h).duration) ∧
    (∀ (pre : List Segment) (t : String),
      calculate_duration (pre ++ [⟨t, 10, 2⟩]) = 12) := by
  refine ⟨rfl, ?_, ?_⟩
  · intro l h
    unfold calculate_duration
    rw [List.getLast?_eq_getLast l h]
  · intro pre t
    unfold calculate_duration
    rw [List.getLast?_concat]
    norm_num

/-- Witness for c7_total_duration: its last-segment clause applied to a
concrete one-segment list. -/
theorem c7_total_duration_witness :
    (([⟨"x", 3, 4⟩] : List Segment) ≠ []) ∧
    calculate_duration [⟨"x", 3, 4⟩] = 7 := by
  have h : (([⟨"x", 3, 4⟩] : List Segment) ≠ []) := by simp
  refine ⟨h, ?_⟩
  rw [c7_total_duration.2.1 [⟨"x", 3, 4⟩] h]
  norm_num [List.getLast]

/-! ## Claim C9 -/

/-- C9: two transcript requests identical except for preserve_formatting
get identical responses and identical gateway traces, on both the POST
and the GET endpoint. -/
theorem c9_preserve_formatting_no_effect :
    ∀ (gw : Gateway) (vid : String) (langs : List String) (s : String)
      (pf₁ pf₂ : Bool),
      post_transcript gw vid langs pf₁ = post_transcript gw vid langs pf₂ ∧
      get_transcript_get gw vid s pf₁ = get_transcript_get gw vid s pf₂ :=
  fun _ _ _ _ _ _ => ⟨rfl, rfl⟩

/-! ## More helper lemmas about the string primitives -/

theorem mem_of_listContains : ∀ {h n : List Char},
    listContains n h = true → ∀ c ∈ n, c ∈ h := by
  intro h
  induction h with
  | nil =>
    intro n hc c hcn
    cases n with
    | nil => cases hcn
    | cons x rest => simp [listContains, List.isEmpty] at hc
  | cons x rest ih =>
    intro n hc c hcn
    have hc2 : n <+: x :: rest ∨ listContains n rest = true := by
      simpa [listContains] using hc
    rcases hc2 with hp | hr
    · exact hp.subset hcn
    · exact List.mem_cons_of_mem x (ih hr c hcn)

theorem listContains_mono_needle : ∀ {h n m : List Char},
    n <+: m → listContains m h = true → listContains n h = true := by
  intro h
  induction h with
  | nil =>
    intro n m hnm hc
    cases m with
    | nil =>
      have : n = [] := List.prefix_nil.mp hnm
      subst this
      rfl
    | cons x rest => simp [listContains, List.isEmpty] at hc
  | cons x rest ih =>
    intro n m hnm hc
    have hc2 : m <+: x :: rest ∨ listContains m rest = true := by
      simpa [listContains] using hc
    rcases hc2 with hp | hr
    · have hpre : n <+: x :: rest := hnm.trans hp
      simp [listContains, hpre]
    · simp [listContains, ih hnm hr]

theorem listContains_suffix_self : ∀ (a n : List Char), listContains n (a ++ n) = true := by
  intro a n
  induction a with
  | nil =>
    cases n with
    | nil => rfl
    | cons c rest =>
      simp [listContains, List.isPrefixOf_iff_prefix.mpr (List.prefix_refl (c :: rest))]
  | cons x a ih => simp [listContains, ih]

/-- The validator applies extract_video_id only behind a youtube.com /
youtu.be containment test, but that test is implied by each of the three
URL markers, so the candidate is extract_video_id of the input for every
input. -/
theorem candidateOf_eq_extract (v : String) : candidateOf v = extract_video_id v := by
  unfold candidateOf
  by_cases h : (strContains v "youtube.com" || strContains v "youtu.be") = true
  · rw [if_pos h]
  · rw [if_neg h]
    have hcom : strContains v "youtube.com" = false := by
      cases hx : strContains v "youtube.com" with
      | false => rfl
      | true => exact absurd (by simp [hx]) h
    have hbe : strContains v "youtu.be" = false := by
      cases hx : strContains v "youtu.be" with
      | false => rfl
      | true => exact absurd (by simp [hx]) h
    have h1 : strContains v "youtu.be/" = false := by
      cases hx : strContains v "youtu.be/" with
      | false => rfl
      | true =>
        have := listContains_mono_needle (n := "youtu.be".data)
          (m := "youtu.be/".data) (by decide) hx
        rw [strContains] at hbe
        rw [this] at hbe
        cases hbe
    have h2 : strContains v "youtube.com/watch" = false := by
      cases hx : strContains v "youtube.com/watch" with
      | false => rfl
      | true =>
        have := listContains_mono_needle (n := "youtube.com".data)
          (m := "youtube.com/watch".data) (by decide) hx
        rw [strContains] at hcom
        rw [this] at hcom
        cases hcom
    have h3 : strContains v "youtube.com/embed/" = false := by
      cases hx : strContains v "youtube.com/embed/" with
      | false => rfl
      | true =>
        have := listContains_mono_needle (n := "youtube.com".data)
          (m := "youtube.com/embed/".data) (by decide) hx
        rw [strContains] at hcom
        rw [this] at hcom
        cases hcom
    unfold extract_video_id
    rw [h1, h2, h3]
    simp

/-- A string of identifier characters contains none of the three URL
markers (each marker contains a dot), so extraction returns it
unchanged. -/
theorem extract_id_of_pattern (s : String) (h : specMatchId s = true) :
    extract_video_id s = some s := by
  have hall : s.data.all isIdChar = true := by
    unfold specMatchId at h
    exact (Bool.and_eq_true_iff.mp h).2
  have hdot : '.' ∉ s.data := by
    intro hm
    have hch : isIdChar '.' = true := List.all_eq_true.mp hall '.' hm
    exact absurd hch (by decide)
  have noMarker : ∀ n : List Char, '.' ∈ n → listContains n s.data = false := by
    intro n hn
    cases hx : listContains n s.data with
    | false => rfl
    | true => exact absurd (mem_of_listContains hx '.' hn) hdot
  unfold extract_video_id
  rw [strContains, strContains, strContains,
    noMarker "youtu.be/".data (by decide),
    noMarker "youtube.com/watch".data (by decide),
    noMarker "youtube.com/embed/".data (by decide)]
  simp

/-- Every identifier the validator accepts satisfies the Python-semantics
pattern check. -/
theorem validate_ok_matches {s v : String}
    (h : validate_video_id s = .ok v) : pyMatchesId v = true := by
  unfold validate_video_id at h
  cases hc : candidateOf s with
  | none => rw [hc] at h; cases h
  | some c =>
    simp only [hc] at h
    by_cases hm : pyMatchesId c = true
    · simp only [hm, if_true] at h
      cases h
      exact hm
    · simp only [hm] at h
      simp at h

/-- The fetch call, with the language list it was given, is always in the
transcript handler's trace. -/
theorem fetch_mem_trace (gw : Gateway) (vid : String) (langs : List String) (pf : Bool) :
    GatewayCall.fetchCall vid langs ∈ (get_transcript gw vid langs pf).2 := by
  unfold get_transcript
  cases gw.fetch vid langs with
  | ok segs => simp
  | error e => cases e <;> simp

/-- Every gateway call the transcript handler makes carries the handler's
video id. -/
theorem get_transcript_trace_ids (gw : Gateway) (vid : String) (langs : List String)
    (pf : Bool) :
    ∀ call ∈ (get_transcript gw vid langs pf).2, call.videoId = vid := by
  intro call hc
  unfold get_transcript at hc
  cases hf : gw.fetch vid langs with
  | ok segs =>
    rw [hf] at hc
    by_cases hs : segs.isEmpty = true
    · simp [hs] at hc
      rcases hc with rfl | rfl <;> rfl
    · simp [hs] at hc
      rcases hc with rfl | rfl <;> rfl
  | error e =>
    rw [hf] at hc
    cases e <;> simp at hc <;> subst hc <;> rfl

/-- Distinguish two strings by the first character when the first is an
append. -/
theorem append_ne_of_first_char (a m b : String) (c₁ c₂ : Char)
    (ha : a.data.head? = some c₁) (hb : b.data.head? = some c₂) (hne : c₁ ≠ c₂) :
    a ++ m ≠ b := by
  intro h
  apply hne
  have hd := congrArg String.data h
  rw [strData_append] at hd
  have h1 : (a.data ++ m.data).head? = some c₂ := by rw [hd, hb]
  have h2 : (a.data ++ m.data).head? = some c₁ := by
    cases ha2 : a.data with
    | nil => rw [ha2] at ha; exact absurd ha (by simp)
    | cons x l => rw [ha2] at ha; simpa using ha
  rw [h2] at h1
  exact Option.some.inj h1

/-! ## Concrete gateways used for witnesses and counterexamples -/

/-- A gateway whose fetch reports transcripts disabled. -/
def gwDisabled : Gateway :=
  ⟨fun _ _ => .error .transcriptsDisabled, fun _ => .error (.other "x")⟩

/-- A gateway whose fetch finds no transcript. -/
def gwNoTranscript : Gateway :=
  ⟨fun _ _ => .error .noTranscriptFound, fun _ => .error (.other "x")⟩

/-- A gateway that fetches one segment and lists Spanish before English. -/
def gwListingEsEn : Gateway :=
  ⟨fun _ _ => .ok [⟨"hola", 0, 1⟩],
   fun _ => .ok [⟨"es", "Spanish", false, true⟩, ⟨"en", "English", false, true⟩]⟩

/-- A gateway that fetches one segment but whose listing call raises. -/
def gwListingFails : Gateway :=
  ⟨fun _ _ => .ok [⟨"hi", 0, 1⟩], fun _ => .error (.other "boom")⟩

/-! ## Claim C1 -/

/-- The used-language rule as the claim words it: scan the caller's
preference list in order and report the first language whose code
appears in the available-languages listing. -/
def claimUsedLanguage (entries : List TranscriptEntry) (languages : List String) :
    Option String :=
  languages.find? (fun l => entries.any (fun t => t.language_code == l))

/-- C1 counterexample: with the listing iterating Spanish before English
and the caller preferring English before Spanish, the code reports es
while the claim's preference-list-order rule yields en. -/
theorem c1_counterexample :
    ((get_transcript gwListingEsEn "dQw4w9WgXcQ" ["en", "es"] false).1).language
      = some "es" ∧
    claimUsedLanguage
      [⟨"es", "Spanish", false, true⟩, ⟨"en", "English", false, true⟩]
      ["en", "es"] = some "en" ∧
    some ("es" : String) ≠ some "en" := by decide

/-- C1 amended: on a successful fetch the reported language is none when
the fetched segment list is empty; otherwise it is the code of the
first entry of the available-languages listing, in the listing's own
iteration order, whose code appears in the preference list (none when
no entry qualifies); if the secondary lookup fails it is the first
requested language, or the string unknown when the preference list is
empty. -/
theorem c1_used_language_amended :
    ∀ (gw : Gateway) (vid : String) (langs : List String) (pf : Bool)
      (segs : List Segment),
      gw.fetch vid langs = .ok segs →
      ((get_transcript gw vid langs pf).1).language =
        (if segs.isEmpty then none
         else
           match gw.listTranscripts vid with
           | .ok entries =>
             (entries.find? (fun t => langs.contains t.language_code)).map
               (fun t => t.language_code)
           | .error _ => some (langs.headD "unknown")) := by
  intro gw vid langs pf segs hfetch
  unfold get_transcript
  rw [hfetch]
  show usedLanguageCalc gw vid langs segs = _
  unfold usedLanguageCalc
  by_cases hs : segs.isEmpty = true
  · simp [hs]
  · simp only [hs, if_false, Bool.false_eq_true]
    cases gw.listTranscripts vid with
    | ok entries => rfl
    | error e => cases langs <;> rfl

/-- Witness for c1_used_language_amended at a concrete gateway. -/
theorem c1_used_language_amended_witness :
    gwListingEsEn.fetch "dQw4w9WgXcQ" ["en", "es"] = .ok [⟨"hola", 0, 1⟩] ∧
    ((get_transcript gwListingEsEn "dQw4w9WgXcQ" ["en", "es"] false).1).language =
      (if ([⟨"hola", 0, 1⟩] : List Segment).isEmpty then none
       else
         match gwListingEsEn.listTranscripts "dQw4w9WgXcQ" with
         | .ok entries =>
           (entries.find? (fun t => ["en", "es"].contains t.language_code)).map
             (fun t => t.language_code)
         | .error _ => some (["en", "es"].headD "unknown")) :=
  ⟨rfl, c1_used_language_amended gwListingEsEn "dQw4w9WgXcQ" ["en", "es"] false
    [⟨"hola", 0, 1⟩] rfl⟩

/-! ## Claim C2 -/

/-- C2 counterexample: the candidate abcdefghijk followed by a newline does
not match the pattern as a plain (full-match) regular expression, yet
the validator accepts it, because a bare Python $ also matches just
before one trailing newline. -/
theorem c2_counterexample :
    candidateOf "abcdefghijk\n" = some "abcdefghijk\n" ∧
    specMatchId "abcdefghijk\n" = false ∧
    validate_video_id "abcdefghijk\n" = .ok "abcdefghijk\n" := by decide

/-- C2 amended: the candidate checked is always extract_video_id of the
input; a candidate failing Python's re.match of the pattern (11 class
characters, optionally followed by one trailing newline) fails with the
fixed-message validation ValueError; a missing candidate (watch URL
without v) raises a TypeError instead; and every raised error is of a
kind pydantic v1 converts into a model validation error. -/
theorem c2_validation_amended :
    ∀ s : String,
      candidateOf s = extract_video_id s ∧
      (candidateOf s = none →
        validate_video_id s =
          .error (.typeError "expected string or bytes-like object")) ∧
      (∀ c, candidateOf s = some c → pyMatchesId c = true →
        validate_video_id s = .ok c) ∧
      (∀ c, candidateOf s = some c → pyMatchesId c = false →
        validate_video_id s =
          .error (.valueError "Invalid YouTube video ID format")) ∧
      (∀ e, validate_video_id s = .error e → pydanticCatchesErr e = true) := by
  intro s
  refine ⟨candidateOf_eq_extract s, ?_, ?_, ?_, ?_⟩
  · intro h
    unfold validate_video_id
    rw [h]
  · intro c hc hm
    unfold validate_video_id
    rw [hc]
    simp [hm]
  · intro c hc hm
    unfold validate_video_id
    rw [hc]
    simp [hm]
  · intro e _
    cases e <;> rfl

/-- Witness for c2_validation_amended: the rejection clause applied to the
concrete input short. -/
theorem c2_validation_amended_witness :
    candidateOf "short" = some "short" ∧
    pyMatchesId "short" = false ∧
    validate_video_id "short" = .error (.valueError "Invalid YouTube video ID format") :=
  ⟨rfl, rfl, (c2_validation_amended "short").2.2.2.1 "short" rfl rfl⟩

/-! ## Claim C3 -/

/-- Modelled from the claim's words: identical to the source's
extract_video_id except that the embed branch takes the substring after
the marker youtube.com/embed/ itself (truncated at the first question
mark), as the claim states, rather than after the last occurrence of
the shorter marker embed/ that the code actually splits on. -/
def specExtractClaim (url : String) : Option String :=
  if strContains url "youtu.be/" then
    some ⟨beforeFirstChar '?' (splitTail "youtu.be/".data url.data)⟩
  else if strContains url "youtube.com/watch" then
    (queryParamV (pyQuery url.data)).map (fun v => (⟨v⟩ : String))
  else if strContains url "youtube.com/embed/" then
    some ⟨beforeFirstChar '?' (splitTail "youtube.com/embed/".data url.data)⟩
  else
    some url

/-- The extraction procedure as amended: the embed branch splits on the
marker embed/ (the code's url.split('embed/')[-1]). -/
def specExtractAmended (url : String) : Option String :=
  if strContains url "youtu.be/" then
    some ⟨beforeFirstChar '?' (splitTail "youtu.be/".data url.data)⟩
  else if strContains url "youtube.com/watch" then
    (queryParamV (pyQuery url.data)).map (fun v => (⟨v⟩ : String))
  else if strContains url "youtube.com/embed/" then
    some ⟨beforeFirstChar '?' (splitTail "embed/".data url.data)⟩
  else
    some url

/-- C3 counterexample: on an embed URL that contains embed/ twice, the
code takes the substring after the last embed/ while the claim's
procedure (substring after the youtube.com/embed/ marker, which occurs
exactly once here) keeps the extra embed/ prefix. -/
theorem c3_counterexample :
    extract_video_id "youtube.com/embed/embed/dQw4w9WgXcQ" = some "dQw4w9WgXcQ" ∧
    specExtractClaim "youtube.com/embed/embed/dQw4w9WgXcQ" = some "embed/dQw4w9WgXcQ" ∧
    some ("dQw4w9WgXcQ" : String) ≠ some "embed/dQw4w9WgXcQ" := by decide

/-- C3 amended: extraction follows the claimed branch order with the embed
branch taking the substring after the last occurrence of embed/; any
string of exactly 11 identifier characters is returned unchanged, and
the two scenario URLs both extract to dQw4w9WgXcQ. -/
theorem c3_extraction_amended :
    (∀ s : String, extract_video_id s = specExtractAmended s) ∧
    (∀ s : String, specMatchId s = true → extract_video_id s = some s) ∧
    extract_video_id "https://youtu.be/dQw4w9WgXcQ" = some "dQw4w9WgXcQ" ∧
    extract_video_id "https://www.youtube.com/watch?v=dQw4w9WgXcQ&t=10" =
      some "dQw4w9WgXcQ" :=
  ⟨fun _ => rfl, extract_id_of_pattern, by decide, by decide⟩

/-- Witness for c3_extraction_amended: its bare-identifier clause at the
concrete identifier dQw4w9WgXcQ. -/
theorem c3_extraction_amended_witness :
    specMatchId "dQw4w9WgXcQ" = true ∧
    extract_video_id "dQw4w9WgXcQ" = some "dQw4w9WgXcQ" :=
  ⟨by decide, c3_extraction_amended.2.1 "dQw4w9WgXcQ" (by decide)⟩

/-! ## Claim C4 -/

/-- C4: each gateway failure mode maps to its own named error response:
transcripts disabled, no transcript found (with the language list in
the message), video unavailable, and an opaque unexpected-error
response that passes the underlying message through; the four error
messages are pairwise distinct for every language list and every
underlying message. -/
theorem c4_failure_mapping :
    ∀ (gw : Gateway) (vid : String) (langs : List String) (pf : Bool) (msg : String),
      (gw.fetch vid langs = .error .transcriptsDisabled →
        (get_transcript gw vid langs pf).1 =
          ⟨false, vid, none, none, none, none,
            some "Transcripts are disabled for this video", none, none⟩) ∧
      (gw.fetch vid langs = .error .noTranscriptFound →
        (get_transcript gw vid langs pf).1 =
          ⟨false, vid, none, none, none, none,
            some ("No transcript found for languages: " ++ pyListRepr langs),
            none, none⟩) ∧
      (gw.fetch vid langs = .error .videoUnavailable →
        (get_transcript gw vid langs pf).1 =
          ⟨false, vid, none, none, none, none,
            some "Video is unavailable", none, none⟩) ∧
      (gw.fetch vid langs = .error (.unexpected msg) →
        (get_transcript gw vid langs pf).1 =
          ⟨false, vid, none, none, none, none,
            some ("Unexpected error: " ++ msg), none, none⟩) ∧
      "No transcript found for languages: " ++ pyListRepr langs ≠
        "Transcripts are disabled for this video" ∧
      "No transcript found for languages: " ++ pyListRepr langs ≠
        "Video is unavailable" ∧
      "Unexpected error: " ++ msg ≠ "Transcripts are disabled for this video" ∧
      "Unexpected error: " ++ msg ≠ "Video is unavailable" ∧
      "Unexpected error: " ++ msg ≠
        "No transcript found for languages: " ++ pyListRepr langs ∧
      ("Transcripts are disabled for this video" : String) ≠ "Video is unavailable" ∧
      strContains ("Unexpected error: " ++ msg) msg = true := by
  intro gw vid langs pf msg
  refine ⟨?_, ?_, ?_, ?_, ?_, ?_, ?_, ?_, ?_, by decide, ?_⟩
  · intro h
    unfold get_transcript
    rw [h]
  · intro h
    unfold get_transcript
    rw [h]
  · intro h
    unfold get_transcript
    rw [h]
  · intro h
    unfold get_transcript
    rw [h]
  · exact append_ne_of_first_char _ _ _ 'N' 'T' rfl rfl (by decide)
  · exact append_ne_of_first_char _ _ _ 'N' 'V' rfl rfl (by decide)
  · exact append_ne_of_first_char _ _ _ 'U' 'T' rfl rfl (by decide)
  · exact append_ne_of_first_char _ _ _ 'U' 'V' rfl rfl (by decide)
  · exact append_ne_of_first_char _ _ _ 'U' 'N' rfl
      (by rw [strData_append]; rfl) (by decide)
  · rw [strContains, strData_append]
    exact listContains_suffix_self _ _

/-- Witness for c4_failure_mapping: the transcripts-disabled clause at a
concrete gateway. -/
theorem c4_failure_mapping_witness :
    gwDisabled.fetch "dQw4w9WgXcQ" ["en"] = .error .transcriptsDisabled ∧
    (get_transcript gwDisabled "dQw4w9WgXcQ" ["en"] false).1 =
      ⟨false, "dQw4w9WgXcQ", none, none, none, none,
        some "Transcripts are disabled for this video", none, none⟩ :=
  ⟨rfl, (c4_failure_mapping gwDisabled "dQw4w9WgXcQ" ["en"] false "").1 rfl⟩

/-! ## Claim C5 -/

/-- Modelled from the claim's words: the comma-split and
whitespace-stripped list, with no dropping of empty tokens. -/
def claimCommaSplit (languages : String) : List String :=
  (splitChar ',' languages.data).map (fun l => pyStrip ⟨l⟩)

/-- C5 counterexample: for the languages string consisting of a comma then
en, the claim's comma-split stripped list contains an empty token, and
the GET request (which drops empty tokens) does not return the same
response as the POST request with that list: the no-transcript error
message renders the two different language lists.  A second divergence:
for an invalid video reference the POST fails request validation (422)
while the GET raises inside the handler (500). -/
theorem c5_counterexample :
    claimCommaSplit ",en" = ["", "en"] ∧
    get_transcript_get gwNoTranscript "dQw4w9WgXcQ" ",en" false ≠
      post_transcript gwNoTranscript "dQw4w9WgXcQ" ["", "en"] false ∧
    get_transcript_get gwNoTranscript "short" "en" false ≠
      post_transcript gwNoTranscript "short" ["en"] false := by decide

/-- C5 amended: the GET language list is the comma-split, stripped list
with empty tokens dropped; for a video reference that passes
validation, GET behaves exactly like POST with that list (same
response, same gateway calls); when validation fails, neither makes a
gateway call, but POST returns a request-validation failure while GET
fails inside the handler. -/
theorem c5_get_equals_post_amended :
    ∀ (gw : Gateway) (vid : String) (langs : String) (pf : Bool),
      splitClean langs = (claimCommaSplit langs).filter (fun s => !(s == "")) ∧
      ((validate_video_id vid).isOk = true →
        get_transcript_get gw vid langs pf =
          post_transcript gw vid (splitClean langs) pf) ∧
      ((validate_video_id vid).isOk = false →
        get_transcript_get gw vid langs pf = (.serverError, []) ∧
        post_transcript gw vid (splitClean langs) pf = (.validationError, [])) := by
  intro gw vid langs pf
  refine ⟨rfl, ?_, ?_⟩
  · intro h
    cases hv : validate_video_id vid with
    | error e => rw [hv] at h; cases h
    | ok v =>
      unfold get_transcript_get post_transcript
      rw [hv]
  · intro h
    cases hv : validate_video_id vid with
    | ok v => rw [hv] at h; cases h
    | error e =>
      unfold get_transcript_get post_transcript
      rw [hv]
      exact ⟨rfl, rfl⟩

/-- Witness for c5_get_equals_post_amended: the equality clause at a valid
reference and a concrete gateway. -/
theorem c5_get_equals_post_amended_witness :
    (validate_video_id "dQw4w9WgXcQ").isOk = true ∧
    get_transcript_get gwNoTranscript "dQw4w9WgXcQ" "en, es" false =
      post_transcript gwNoTranscript "dQw4w9WgXcQ" (splitClean "en, es") false :=
  ⟨by decide,
   (c5_get_equals_post_amended gwNoTranscript "dQw4w9WgXcQ" "en, es" false).2.1
     (by decide)⟩

/-- The available-languages handler always makes exactly one listing call,
with its own video id. -/
theorem get_available_trace (gw : Gateway) (vid : String) :
    (get_available_languages gw vid).2 = [.listCall vid] := by
  unfold get_available_languages
  cases gw.listTranscripts vid with
  | ok entries => rfl
  | error e => cases e <;> rfl

/-! ## Claim C8 -/

/-- C8 counterexample: the reference abcdefghijk followed by a newline does
not match the 11-character identifier pattern, yet it passes the
validator (Python $ accepts the trailing newline) and is passed to the
gateway fetch call. -/
theorem c8_counterexample :
    specMatchId "abcdefghijk\n" = false ∧
    (post_transcript gwDisabled "abcdefghijk\n" ["en"] false).2 =
      [.fetchCall "abcdefghijk\n" ["en"]] := by decide

/-- C8 amended: on every endpoint, every video id passed to the gateway has
passed the validator's Python-semantics pattern check (11 identifier
characters, optionally followed by one trailing newline); a reference
failing that check yields a terminal error before any gateway call
(request-validation failure on the POST endpoints, an in-handler
failure on the GET endpoints) and is never retried. -/
theorem c8_gateway_guard_amended :
    ∀ (gw : Gateway) (vid : String) (langs : List String) (pf : Bool) (s : String),
      (∀ call ∈ (post_transcript gw vid langs pf).2,
        pyMatchesId call.videoId = true) ∧
      (∀ call ∈ (get_transcript_get gw vid s pf).2,
        pyMatchesId call.videoId = true) ∧
      (∀ call ∈ (post_available_languages gw vid).2,
        pyMatchesId call.videoId = true) ∧
      (∀ call ∈ (get_available_languages_get gw vid).2,
        pyMatchesId call.videoId = true) ∧
      ((validate_video_id vid).isOk = false →
        post_transcript gw vid langs pf = (.validationError, []) ∧
        get_transcript_get gw vid s pf = (.serverError, []) ∧
        post_available_languages gw vid = (.validationError, []) ∧
        get_available_languages_get gw vid = (.serverError, [])) := by
  intro gw vid langs pf s
  cases hv : validate_video_id vid with
  | error e =>
    refine ⟨?_, ?_, ?_, ?_, ?_⟩
    · intro call hc
      unfold post_transcript at hc
      rw [hv] at hc
      cases hc
    · intro call hc
      unfold get_transcript_get at hc
      rw [hv] at hc
      cases hc
    · intro call hc
      unfold post_available_languages at hc
      rw [hv] at hc
      cases hc
    · intro call hc
      unfold get_available_languages_get at hc
      rw [hv] at hc
      cases hc
    · intro _
      unfold post_transcript get_transcript_get post_available_languages
        get_available_languages_get
      rw [hv]
      exact ⟨rfl, rfl, rfl, rfl⟩
  | ok v =>
    have hm : pyMatchesId v = true := validate_ok_matches hv
    refine ⟨?_, ?_, ?_, ?_, ?_⟩
    · intro call hc
      unfold post_transcript at hc
      rw [hv] at hc
      have hc2 : call ∈ (get_transcript gw v langs pf).2 := hc
      rw [get_transcript_trace_ids gw v langs pf call hc2]
      exact hm
    · intro call hc
      unfold get_transcript_get at hc
      rw [hv] at hc
      have hc2 : call ∈ (get_transcript gw v (splitClean s) pf).2 := hc
      rw [get_transcript_trace_ids gw v (splitClean s) pf call hc2]
      exact hm
    · intro call hc
      unfold post_available_languages at hc
      rw [hv] at hc
      have hc2 : call ∈ (get_available_languages gw v).2 := hc
      rw [get_available_trace gw v] at hc2
      simp at hc2
      subst hc2
      exact hm
    · intro call hc
      unfold get_available_languages_get at hc
      rw [hv] at hc
      have hc2 : call ∈ (get_available_languages gw v).2 := hc
      rw [get_available_trace gw v] at hc2
      simp at hc2
      subst hc2
      exact hm
    · intro h
      exact Bool.noConfusion h

/-- Witness for c8_gateway_guard_amended: the terminal-failure clause at
the invalid reference short, and the guard clause at a concrete trace
entry. -/
theorem c8_gateway_guard_amended_witness :
    (validate_video_id "short").isOk = false ∧
    post_transcript gwDisabled "short" ["en"] false = (.validationError, []) ∧
    pyMatchesId (GatewayCall.fetchCall "dQw4w9WgXcQ" ["en"]).videoId = true :=
  ⟨by decide,
   ((c8_gateway_guard_amended gwDisabled "short" ["en"] false "en").2.2.2.2
     (by decide)).1,
   (c8_gateway_guard_amended gwDisabled "dQw4w9WgXcQ" ["en"] false "en").1
     (.fetchCall "dQw4w9WgXcQ" ["en"]) (by decide)⟩

/-! ## Claim C10 -/

/-- C10: a GET languages string whose comma tokens all strip to empty
yields the empty preference list (not the default [en]); that empty
list is what the GET endpoint passes to the gateway fetch; and when the
used-language fallback fires with an empty preference list, the
response's language field is the literal string unknown. -/
theorem c10_blank_language_tokens :
    (∀ s : String,
      (splitChar ',' s.data).all (fun l => pyStrip ⟨l⟩ == "") = true →
      splitClean s = []) ∧
    (∀ (gw : Gateway) (vid v s : String) (pf : Bool),
      validate_video_id vid = .ok v → splitClean s = [] →
      GatewayCall.fetchCall v [] ∈ (get_transcript_get gw vid s pf).2) ∧
    (∀ (gw : Gateway) (vid : String) (pf : Bool) (segs : List Segment)
      (err : ListErr),
      gw.fetch vid [] = .ok segs → segs.isEmpty = false →
      gw.listTranscripts vid = .error err →
      ((get_transcript gw vid [] pf).1).language = some "unknown") := by
  refine ⟨?_, ?_, ?_⟩
  · intro s h
    unfold splitClean
    apply List.filter_eq_nil_iff.mpr
    intro a ha
    obtain ⟨l, hl, rfl⟩ := List.mem_map.mp ha
    have hb := List.all_eq_true.mp h l hl
    simp at hb ⊢
    exact hb
  · intro gw vid v s pf hval hsplit
    unfold get_transcript_get
    rw [hval]
    have hmem : GatewayCall.fetchCall v [] ∈ (get_transcript gw v (splitClean s) pf).2 := by
      rw [hsplit]
      exact fetch_mem_trace gw v [] pf
    exact hmem
  · intro gw vid pf segs err hf hs hl
    unfold get_transcript
    rw [hf]
    show usedLanguageCalc gw vid [] segs = some "unknown"
    unfold usedLanguageCalc
    simp [hs, hl]

/-- Witness for c10_blank_language_tokens at a concrete gateway whose
listing call fails. -/
theorem c10_blank_language_tokens_witness :
    splitClean "," = [] ∧
    GatewayCall.fetchCall "dQw4w9WgXcQ" [] ∈
      (get_transcript_get gwListingFails "dQw4w9WgXcQ" "," false).2 ∧
    ((get_transcript gwListingFails "dQw4w9WgXcQ" [] false).1).language =
      some "unknown" :=
  ⟨c10_blank_language_tokens.1 "," (by decide),
   c10_blank_language_tokens.2.1 gwListingFails "dQw4w9WgXcQ" "dQw4w9WgXcQ" ","
     false (by decide) (by decide),
   c10_blank_language_tokens.2.2 gwListingFails "dQw4w9WgXcQ" false
     [⟨"hi", 0, 1⟩] (.other "boom") rfl rfl rfl⟩
